import Mathlib

/-!
Shallow embedding of the risk-scoring engine `compute_risk` from
`src/app.py` (lines 59-117) of the streamlit-dashboard repository,
together with proofs settling the specification claims about it.

Modelling conventions:
* A dataframe row is a `Row`.  The `Time` column is modelled post-parse
  (`pd.to_datetime(..., dayfirst=True, errors="coerce")`, line 65) as
  `Option Int`: `some t` is a successfully parsed timestamp rendered as
  seconds, `none` is a parse failure (`NaT`).  All pandas comparisons
  against `NaT` are false, which the `timeGe` helper mirrors.
* `Description` may be null in pandas (`str.contains(..., na=False)`
  treats null as no-match), hence `Option String`.
* A dataframe is a `Table`: a list of column names plus the rows.
  Accessing a missing column in pandas raises `KeyError`; the spec calls
  this failure class `SchemaError`, and `computeRisk` models it by
  checking the required columns up front (every one of them is accessed
  unconditionally by the straight-line source).
* `pd.Timestamp.now()` is read inside the source function; it is made an
  explicit parameter `now` here so that properties relative to the
  reference time can be stated.  Likewise the dead variable `course_id`
  (line 62, assigned `83` and never read) is kept as an explicit, unused
  parameter of `computeRiskCore` so that independence from it is statable.
* Per-user aggregates (`groupby("User full name")` + `map` back onto the
  rows) are modelled as functions of the full row list and the user name,
  computed over the sublist `userRows df u` of that user's rows.
-/

/-- One row of the input event log, with `Time` already parsed. -/
structure Row where
  user : String
  time : Option Int
  event_name : String
  description : Option String
  ip_address : String
deriving DecidableEq, Repr

/-- One row of the augmented output table: the input columns plus the
eleven columns assigned by `compute_risk` (lines 71-116), in source
order. -/
structure ORow where
  user : String
  time : Option Int
  event_name : String
  description : Option String
  ip_address : String
  zero_resource : Bool
  lastmin_first : Bool
  grade_snoop : Nat
  status_checks : Nat
  no_draft : Bool
  minute5 : Option Int
  hop_binge : Nat
  help_count : Bool
  ip_block : Option String
  geo_jumps : Nat
  risk_score : Nat
deriving DecidableEq, Repr

/-- An input dataframe: column names plus rows. -/
structure Table where
  cols : List String
  rows : List Row
deriving DecidableEq, Repr

/-- An output dataframe. -/
structure OTable where
  cols : List String
  rows : List ORow
deriving DecidableEq, Repr

/-- The spec's `SchemaError` failure class (a pandas `KeyError` on a
missing required column). -/
inductive SchemaError where
  | missingColumn (name : String)
deriving DecidableEq, Repr

/-- The five input columns `compute_risk` reads unconditionally, in the
order the source first accesses them (lines 65, 68, 69, 70, 103). -/
def requiredCols : List String :=
  ["Time", "Event name", "Description", "User full name", "IP address"]

/-- The columns `compute_risk` assigns onto the dataframe, in source
order (lines 71, 75, 83, 88, 89, 92, 95, 100, 103, 105, 108). -/
def addedCols : List String :=
  ["zero_resource", "lastmin_first", "grade_snoop", "status_checks",
   "no_draft", "minute5", "hop_binge", "help_count", "ip_block",
   "geo_jumps", "risk_score"]

/-- Hard-coded deadline `pd.Timestamp("2025-12-17 23:59:59")` (line 63),
rendered as seconds since the epoch. -/
def deadlineTS : Int := 1766015999

/-- Pandas comparison `t ≥ b` on a possibly-`NaT` timestamp: any
comparison against `NaT` is false. -/
def timeGe (t : Option Int) (b : Int) : Bool :=
  match t with
  | none => false
  | some v => b ≤ v

/-- Null-aware substring test: `Series.str.contains(pat, na=False)`
(the pattern `"2889"` has no regex metacharacters, so `regex=True` is
plain substring containment). -/
def descContains (d : Option String) (pat : String) : Bool :=
  match d with
  | none => false
  | some s => (s.splitOn pat).length ≥ 2

/-- Try to match `\d+\.\d+\.\d+\.\d+` at the head of the character list;
on success return the capture group `\d+\.\d+\.\d+` (the first three
octets). -/
def ipMatchAt (cs : List Char) : Option String :=
  let p1 := cs.span (fun c => c.isDigit)
  if p1.1.isEmpty then none else
  match p1.2 with
  | '.' :: r1 =>
    let p2 := r1.span (fun c => c.isDigit)
    if p2.1.isEmpty then none else
    match p2.2 with
    | '.' :: r2 =>
      let p3 := r2.span (fun c => c.isDigit)
      if p3.1.isEmpty then none else
      match p3.2 with
      | '.' :: r3 =>
        let p4 := r3.span (fun c => c.isDigit)
        if p4.1.isEmpty then none else
        some (String.mk (p1.1 ++ '.' :: p2.1 ++ '.' :: p3.1))
      | _ => none
    | _ => none
  | _ => none

/-- Leftmost match of the unanchored search
`Series.str.extract(r"(\d+\.\d+\.\d+)\.\d+")` (line 103): scan the
string left to right for the pattern; `none` models the NaN produced
when no match exists. -/
def ipSearch : List Char → Option String
  | [] => none
  | c :: cs =>
    match ipMatchAt (c :: cs) with
    | some b => some b
    | none => ipSearch cs

/-- The `/24` block extracted from an `IP address` value. -/
def ipBlock (s : String) : Option String :=
  ipSearch s.data

/-- The sublist of rows belonging to user `u`
(`groupby("User full name")` group of `u`). -/
def userRows (df : List Row) (u : String) : List Row :=
  df.filter (fun r => r.user == u)

/-- Signal 1 (lines 68-71): `zero_resource` is true for `u` iff no row of
the log has `Event name == "Course module viewed"` and a `Description`
containing `str(assign_cmid) = "2889"` for that user (membership of `u`
in `opened["User full name"].unique()`, negated). -/
def zeroResource (df : List Row) (u : String) : Bool :=
  !((userRows df u).any (fun r =>
    r.event_name == "Course module viewed" && descContains r.description "2889"))

/-- The user's successfully parsed timestamps (pandas aggregates skip
`NaT`). -/
def userTimes (df : List Row) (u : String) : List Int :=
  (userRows df u).filterMap (fun r => r.time)

/-- Signal 2 (lines 74-77): `first_access = groupby(...)["Time"].min()`;
for a user whose every timestamp is `NaT` the group minimum is `NaT`,
`deadline - NaT` is `NaT`, `NaT.total_seconds()` is `nan`, and
`nan <= 24` is false.  Otherwise the flag is
`(deadline - first).total_seconds() / 3600 <= 24` (float division,
modelled exactly in `ℚ`). -/
def lastminFirst (df : List Row) (deadline : Int) (u : String) : Bool :=
  match (userTimes df u).min? with
  | none => false
  | some t => decide ((((deadline - t : Int) : ℚ) / 3600) ≤ 24)

/-- Signal 3 (lines 80-83): count of the user's rows with
`Time >= now - 48h` (note: the source has no upper bound at `now`) and
`Event name == "Grade user report viewed"`; absent users get 0 via
`fillna(0)`. -/
def snoopCnt (df : List Row) (now : Int) (u : String) : Nat :=
  ((userRows df u).filter (fun r =>
    timeGe r.time (now - 48 * 3600) &&
    r.event_name == "Grade user report viewed")).length

/-- Signal 4 counts (lines 86-88): rows with the submission-status event,
per user, `fillna(0)`. -/
def statusCnt (df : List Row) (u : String) : Nat :=
  ((userRows df u).filter (fun r =>
    r.event_name == "The status of the submission has been viewed.")).length

/-- Signal 4 placeholder (line 89): `df["no_draft"] = True` — an explicit
stub awaiting real submission-draft data. -/
def noDraft : Bool := true

/-- Floor a parsed timestamp to its 5-minute window
(`df["Time"].dt.floor("5min")`, line 92); `NaT` stays `NaT`. -/
def minute5Floor (t : Option Int) : Option Int :=
  t.map (fun v => v - v % 300)

/-- Signal 5 (lines 92-95): bucket the user's validly-timestamped
`"Course viewed"` rows into 5-minute floor windows and take the maximum
per-window count (`groupby` drops `NaT` keys); users with no such row
get 0 via `fillna(0)`. -/
def hopBinge (df : List Row) (u : String) : Nat :=
  let ts := ((userRows df u).filter (fun r =>
    r.event_name == "Course viewed")).filterMap (fun r => r.time)
  let windows := (ts.map (fun t => t - t % 300)).dedup
  (windows.map (fun w => (ts.filter (fun t => t - t % 300 == w)).length)).foldr max 0

/-- The help-seeking event names (line 98). -/
def helpEvents : List String :=
  ["Forum post created", "Message sent", "FAQ viewed"]

/-- Signal 6 (lines 98-100): whether the user has at least one
help-seeking row (membership in `helped`). -/
def helpCount (df : List Row) (u : String) : Bool :=
  (userRows df u).any (fun r => helpEvents.contains r.event_name)

/-- Signal 7 (lines 103-105): distinct non-null `/24` blocks among the
user's rows with a non-empty `IP address` (`nunique` ignores NaN);
absent users get 0 via `fillna(0)`. -/
def geoJumps (df : List Row) (u : String) : Nat :=
  (((userRows df u).filter (fun r => r.ip_address != "")).filterMap
    (fun r => ipBlock r.ip_address)).dedup.length

/-- Aggregation (lines 108-116): the sum of the seven 0/1 indicators. -/
def riskScore (df : List Row) (deadline now : Int) (u : String) : Nat :=
  (zeroResource df u).toNat +
  (lastminFirst df deadline u).toNat +
  (decide (snoopCnt df now u ≥ 3)).toNat +
  (noDraft && decide (statusCnt df u ≥ 4)).toNat +
  (decide (hopBinge df u ≥ 5)).toNat +
  (!helpCount df u).toNat +
  (decide (geoJumps df u ≥ 2)).toNat

/-- Build the augmented output row for input row `r`: the input columns
are carried over and every per-user aggregate column holds the value for
`r`'s user (the `map`-onto-rows denormalization of the source). -/
def augmentRow (df : List Row) (deadline now : Int) (r : Row) : ORow :=
  { user := r.user
    time := r.time
    event_name := r.event_name
    description := r.description
    ip_address := r.ip_address
    zero_resource := zeroResource df r.user
    lastmin_first := lastminFirst df deadline r.user
    grade_snoop := snoopCnt df now r.user
    status_checks := statusCnt df r.user
    no_draft := noDraft
    minute5 := minute5Floor r.time
    hop_binge := hopBinge df r.user
    help_count := helpCount df r.user
    ip_block := ipBlock r.ip_address
    geo_jumps := geoJumps df r.user
    risk_score := riskScore df deadline now r.user }

/-- The row-level body of `compute_risk`. -/
def augment (df : List Row) (deadline now : Int) : List ORow :=
  df.map (augmentRow df deadline now)

/-- The engine, with the dead `course_id` (line 62) and the hard-coded
deadline (line 63) and wall-clock read (line 64) lifted to explicit
parameters.  A missing required column surfaces as the pandas `KeyError`
on its first access, modelled by the spec's `SchemaError` naming the
first missing column in access order. -/
def computeRiskCore (courseId : Nat) (deadline now : Int) (t : Table) :
    Except SchemaError OTable :=
  let _ := courseId
  match requiredCols.find? (fun c => !(t.cols.contains c)) with
  | some c => .error (.missingColumn c)
  | none => .ok { cols := t.cols ++ addedCols, rows := augment t.rows deadline now }

/-- `compute_risk` as in the source: `course_id = 83`, the fixed
deadline, and the reference time `now` (read from the wall clock in the
source) passed explicitly. -/
def computeRisk (t : Table) (now : Int) : Except SchemaError OTable :=
  computeRiskCore 83 deadlineTS now t

/-! Concrete rows and tables used by witnesses and counterexamples. -/

/-- A snoop row used by witnesses. -/
def rowA : Row :=
  ⟨"alice", some 1000, "Grade user report viewed", none, "10.0.0.5"⟩

/-- A second user's row used by witnesses. -/
def rowB : Row :=
  ⟨"bob", some 500, "Course viewed", some "id 2889", "10.0.1.9"⟩

/-- A variant second-user row used by the isolation witness. -/
def rowC : Row :=
  ⟨"bob", none, "Message sent", none, ""⟩

/-- A one-row input table over the full required schema. -/
def wT1 : Table := ⟨requiredCols, [rowA]⟩

/-- The output `computeRisk` produces on `wT1` at reference time 1000. -/
def wO1 : OTable := ⟨requiredCols ++ addedCols, augment [rowA] deadlineTS 1000⟩

/-- The single output row of `wO1`. -/
def wR1 : ORow := augmentRow [rowA] deadlineTS 1000 rowA

/-- Pandas comparison `t ≤ b` on a possibly-`NaT` timestamp (false on
`NaT`); used only by the specification-side window count below. -/
def timeLe (t : Option Int) (b : Int) : Bool :=
  match t with
  | none => false
  | some v => v ≤ b

/-- The grade-snoop count as the SPECIFICATION words it — rows whose
timestamp lies in the closed interval from `now - 48h` to `now` — for
comparison against the source's `snoopCnt`, which imposes no upper
bound at `now`.  This definition follows the spec's words, not the
source. -/
def snoopWindowCnt (df : List Row) (now : Int) (u : String) : Nat :=
  ((userRows df u).filter (fun r =>
    timeGe r.time (now - 48 * 3600) && timeLe r.time now &&
    r.event_name == "Grade user report viewed")).length

/-- A snoop row timestamped in the future relative to reference time 0. -/
def rowF : Row := ⟨"u", some 10, "Grade user report viewed", none, ""⟩

/-- A table whose three snoop rows all lie after the reference time 0. -/
def cT2 : Table := ⟨requiredCols, [rowF, rowF, rowF]⟩

/-- The output `computeRisk` produces on `cT2` at reference time 0. -/
def cO2 : OTable := ⟨requiredCols ++ addedCols, augment [rowF, rowF, rowF] deadlineTS 0⟩

/-- The first output row of `cO2`. -/
def cR2 : ORow := augmentRow [rowF, rowF, rowF] deadlineTS 0 rowF

/-- Sum of seven booleans-as-naturals is at most seven. -/
theorem sum_seven_toNat_le (b1 b2 b3 b4 b5 b6 b7 : Bool) :
    b1.toNat + b2.toNat + b3.toNat + b4.toNat + b5.toNat + b6.toNat + b7.toNat ≤ 7 := by
  have h1 := Bool.toNat_le b1
  have h2 := Bool.toNat_le b2
  have h3 := Bool.toNat_le b3
  have h4 := Bool.toNat_le b4
  have h5 := Bool.toNat_le b5
  have h6 := Bool.toNat_le b6
  have h7 := Bool.toNat_le b7
  omega

/-- C1: every row of a successful `compute_risk` output has a
`risk_score` that is at most 7 (it is a `Nat`, hence at least 0) and
equals the sum of the seven 0/1 signal indicators computed for that
row's user. -/
theorem riskScore_le_seven_and_eq_sum (t : Table) (now : Int) (o : OTable) (q : ORow)
    (ho : computeRisk t now = Except.ok o) (hm : q ∈ o.rows) :
    q.risk_score ≤ 7 ∧
    q.risk_score =
      (zeroResource t.rows q.user).toNat +
      (lastminFirst t.rows deadlineTS q.user).toNat +
      (decide (snoopCnt t.rows now q.user ≥ 3)).toNat +
      (noDraft && decide (statusCnt t.rows q.user ≥ 4)).toNat +
      (decide (hopBinge t.rows q.user ≥ 5)).toNat +
      (!helpCount t.rows q.user).toNat +
      (decide (geoJumps t.rows q.user ≥ 2)).toNat := by
  simp only [computeRisk, computeRiskCore] at ho
  cases hfind : requiredCols.find? (fun c => !(t.cols.contains c)) with
  | some c => rw [hfind] at ho; exact absurd ho (by simp)
  | none =>
    rw [hfind] at ho
    injection ho with ho
    subst ho
    simp only [augment, List.mem_map] at hm
    obtain ⟨r, _, rfl⟩ := hm
    refine ⟨?_, rfl⟩
    show riskScore t.rows deadlineTS now r.user ≤ 7
    unfold riskScore
    apply sum_seven_toNat_le

/-- Witness for C1 at a concrete one-row table. -/
theorem riskScore_le_seven_and_eq_sum_witness :
    computeRisk wT1 1000 = Except.ok wO1 ∧ wR1 ∈ wO1.rows ∧
    (wR1.risk_score ≤ 7 ∧
      wR1.risk_score =
        (zeroResource wT1.rows wR1.user).toNat +
        (lastminFirst wT1.rows deadlineTS wR1.user).toNat +
        (decide (snoopCnt wT1.rows 1000 wR1.user ≥ 3)).toNat +
        (noDraft && decide (statusCnt wT1.rows wR1.user ≥ 4)).toNat +
        (decide (hopBinge wT1.rows wR1.user ≥ 5)).toNat +
        (!helpCount wT1.rows wR1.user).toNat +
        (decide (geoJumps wT1.rows wR1.user ≥ 2)).toNat) :=
  ⟨rfl, by simp [wO1, augment, wR1],
    riskScore_le_seven_and_eq_sum wT1 1000 wO1 wR1 rfl (by simp [wO1, augment, wR1])⟩

/-- C9: appending any row to the log never decreases a user's
grade-snoop count, hence never turns its 0/1 indicator off. -/
theorem gradeSnoop_indicator_monotone (df : List Row) (r : Row) (now : Int) (u : String) :
    snoopCnt df now u ≤ snoopCnt (df ++ [r]) now u ∧
    (decide (snoopCnt df now u ≥ 3)).toNat ≤
      (decide (snoopCnt (df ++ [r]) now u ≥ 3)).toNat := by
  have h : snoopCnt df now u ≤ snoopCnt (df ++ [r]) now u := by
    unfold snoopCnt userRows
    rw [List.filter_append, List.filter_append, List.length_append]
    exact Nat.le_add_right _ _
  refine ⟨h, ?_⟩
  by_cases h3 : snoopCnt df now u ≥ 3
  · have h3' : snoopCnt (df ++ [r]) now u ≥ 3 := le_trans h3 h
    simp [h3, h3']
  · simp [h3]

/-- C10: `compute_risk` never reads `course_id` (the variable is
assigned and dead), so its output is independent of that value. -/
theorem computeRisk_courseId_independent (c₁ c₂ : Nat) (dl now : Int) (t : Table) :
    computeRiskCore c₁ dl now t = computeRiskCore c₂ dl now t := rfl

/-- C5: the engine is a pure function of the log, the deadline and the
reference time: two calls with equal inputs return equal outputs. -/
theorem computeRisk_deterministic (c : Nat) (dl : Int) (n₁ n₂ : Int) (t₁ t₂ : Table)
    (ht : t₁ = t₂) (hn : n₁ = n₂) :
    computeRiskCore c dl n₁ t₁ = computeRiskCore c dl n₂ t₂ := by
  rw [ht, hn]

/-- Witness for C5 at a concrete table and time. -/
theorem computeRisk_deterministic_witness :
    computeRiskCore 83 deadlineTS 1000 wT1 = computeRiskCore 83 deadlineTS 1000 wT1 :=
  computeRisk_deterministic 83 deadlineTS 1000 1000 wT1 wT1 rfl rfl

/-- C3: a user with at least one validly parsed timestamp (earliest `t`)
is flagged `lastmin_first` exactly when the deadline is at most 24 hours
(86400 seconds) after `t`; a user with no valid timestamp is never
flagged. -/
theorem lastminFirst_characterization (df : List Row) (dl : Int) (u : String) :
    (userTimes df u = [] → lastminFirst df dl u = false) ∧
    (∀ t : Int, (userTimes df u).min? = some t →
      (lastminFirst df dl u = true ↔ dl - t ≤ 24 * 3600)) := by
  constructor
  · intro h
    unfold lastminFirst
    rw [h]
    rfl
  · intro t ht
    unfold lastminFirst
    rw [ht]
    simp only [decide_eq_true_eq]
    rw [div_le_iff₀ (by norm_num : (0:ℚ) < 3600)]
    constructor
    · intro h
      exact_mod_cast h
    · intro h
      exact_mod_cast h

/-- Witness for C3: both the no-timestamp branch and the
earliest-timestamp branch at concrete inputs. -/
theorem lastminFirst_characterization_witness :
    (lastminFirst [rowC] 0 "bob" = false) ∧
    (lastminFirst [rowA] 87400 "alice" = true ↔ (87400 : Int) - 1000 ≤ 24 * 3600) :=
  ⟨(lastminFirst_characterization [rowC] 0 "bob").1 (by decide),
   (lastminFirst_characterization [rowA] 87400 "alice").2 1000 (by decide)⟩

/-- C4: per-user isolation — if two logs agree on the rows belonging to
user `u`, every signal and the risk score of `u` agree across the two
logs (signals read nothing but the user's own rows and the reference
time). -/
theorem signals_user_isolation (df₁ df₂ : List Row) (dl now : Int) (u : String)
    (h : userRows df₁ u = userRows df₂ u) :
    zeroResource df₁ u = zeroResource df₂ u ∧
    lastminFirst df₁ dl u = lastminFirst df₂ dl u ∧
    snoopCnt df₁ now u = snoopCnt df₂ now u ∧
    statusCnt df₁ u = statusCnt df₂ u ∧
    hopBinge df₁ u = hopBinge df₂ u ∧
    helpCount df₁ u = helpCount df₂ u ∧
    geoJumps df₁ u = geoJumps df₂ u ∧
    riskScore df₁ dl now u = riskScore df₂ dl now u := by
  refine ⟨?_, ?_, ?_, ?_, ?_, ?_, ?_, ?_⟩ <;>
    simp only [zeroResource, lastminFirst, userTimes, snoopCnt, statusCnt,
      hopBinge, helpCount, geoJumps, riskScore, h]

/-- Witness for C4: two logs that differ only in bob's rows give alice
identical signals. -/
theorem signals_user_isolation_witness :
    userRows [rowA, rowB] "alice" = userRows [rowA, rowC] "alice" ∧
    (zeroResource [rowA, rowB] "alice" = zeroResource [rowA, rowC] "alice" ∧
     lastminFirst [rowA, rowB] deadlineTS "alice" = lastminFirst [rowA, rowC] deadlineTS "alice" ∧
     snoopCnt [rowA, rowB] 1000 "alice" = snoopCnt [rowA, rowC] 1000 "alice" ∧
     statusCnt [rowA, rowB] "alice" = statusCnt [rowA, rowC] "alice" ∧
     hopBinge [rowA, rowB] "alice" = hopBinge [rowA, rowC] "alice" ∧
     helpCount [rowA, rowB] "alice" = helpCount [rowA, rowC] "alice" ∧
     geoJumps [rowA, rowB] "alice" = geoJumps [rowA, rowC] "alice" ∧
     riskScore [rowA, rowB] deadlineTS 1000 "alice" = riskScore [rowA, rowC] deadlineTS 1000 "alice") :=
  ⟨by decide,
   signals_user_isolation [rowA, rowB] [rowA, rowC] deadlineTS 1000 "alice" (by decide)⟩

/-- C7: on an empty log carrying all required columns, `compute_risk`
returns the empty table with the full augmented schema and no error. -/
theorem computeRisk_empty_log (cols : List String) (now : Int)
    (h : ∀ c ∈ requiredCols, c ∈ cols) :
    computeRisk ⟨cols, []⟩ now = Except.ok ⟨cols ++ addedCols, []⟩ := by
  unfold computeRisk computeRiskCore
  have hfind : requiredCols.find? (fun c => !(cols.contains c)) = none := by
    rw [List.find?_eq_none]
    intro x hx
    simpa using h x hx
  rw [hfind]
  rfl

/-- Witness for C7 with the schema being exactly the required columns. -/
theorem computeRisk_empty_log_witness :
    computeRisk ⟨requiredCols, []⟩ 0 = Except.ok ⟨requiredCols ++ addedCols, []⟩ :=
  computeRisk_empty_log requiredCols 0 (by decide)

/-- C8: a log missing some required column makes `compute_risk` fail
with a `SchemaError` (the pandas `KeyError` surfaced to the caller),
and a log carrying every required column never fails the schema check. -/
theorem computeRisk_schema_error (t : Table) (now : Int) :
    ((∃ c ∈ requiredCols, c ∉ t.cols) →
      ∃ c, computeRisk t now = Except.error (SchemaError.missingColumn c)) ∧
    ((∀ c ∈ requiredCols, c ∈ t.cols) →
      ∃ o, computeRisk t now = Except.ok o) := by
  constructor
  · rintro ⟨c, hc, hnc⟩
    unfold computeRisk computeRiskCore
    cases hfind : requiredCols.find? (fun c => !(t.cols.contains c)) with
    | some c' => exact ⟨c', by simp [hfind]⟩
    | none =>
      rw [List.find?_eq_none] at hfind
      have hcontain := hfind c hc
      simp only [Bool.not_eq_true', Bool.not_eq_false] at hcontain
      exact absurd (by simpa using hcontain) hnc
  · intro h
    unfold computeRisk computeRiskCore
    have hfind : requiredCols.find? (fun c => !(t.cols.contains c)) = none := by
      rw [List.find?_eq_none]
      intro x hx
      simpa using h x hx
    exact ⟨_, by rw [hfind]⟩

/-- Witness for C8: a table with only a `Time` column errors; a table
with the full schema succeeds. -/
theorem computeRisk_schema_error_witness :
    (∃ c, computeRisk ⟨["Time"], []⟩ 0 = Except.error (SchemaError.missingColumn c)) ∧
    (∃ o, computeRisk ⟨requiredCols, []⟩ 0 = Except.ok o) :=
  ⟨(computeRisk_schema_error ⟨["Time"], []⟩ 0).1 (by decide),
   (computeRisk_schema_error ⟨requiredCols, []⟩ 0).2 (by decide)⟩

/-- C2 (counterexample): at reference time 0, a log whose three
"Grade user report viewed" rows are all timestamped at 10 — strictly
after `now`, hence outside the claimed window from `now - 48h` to
`now` — still yields `grade_snoop = 3` for that user, because the
source filters only on `Time >= now - 48h` with no upper bound.  The
count of rows inside the claimed closed window is 0, so the claimed
equality fails. -/
theorem gradeSnoop_window_counterexample :
    computeRisk cT2 0 = Except.ok cO2 ∧ cR2 ∈ cO2.rows ∧ cR2.user = "u" ∧
    cR2.grade_snoop = 3 ∧ snoopWindowCnt cT2.rows 0 "u" = 0 ∧ ¬(3 = 0) :=
  ⟨rfl, by simp [cO2, augment, cR2], rfl, by decide, by decide, by decide⟩

/-- C2 (amended): every output row's `grade_snoop` equals the number of
that user's rows whose event is "Grade user report viewed" and whose
validly parsed timestamp is at least `now - 48h` (with no upper bound
at `now`: future timestamps also count), and the risk score decomposes
as the seven-indicator sum in which grade-snoop contributes +1 exactly
when `grade_snoop ≥ 3`. -/
theorem gradeSnoop_count_and_indicator (t : Table) (now : Int) (o : OTable) (q : ORow)
    (ho : computeRisk t now = Except.ok o) (hm : q ∈ o.rows) :
    q.grade_snoop = ((userRows t.rows q.user).filter (fun r =>
      timeGe r.time (now - 48 * 3600) &&
      r.event_name == "Grade user report viewed")).length ∧
    q.risk_score =
      q.zero_resource.toNat +
      q.lastmin_first.toNat +
      (decide (q.grade_snoop ≥ 3)).toNat +
      (q.no_draft && decide (q.status_checks ≥ 4)).toNat +
      (decide (q.hop_binge ≥ 5)).toNat +
      (!q.help_count).toNat +
      (decide (q.geo_jumps ≥ 2)).toNat := by
  simp only [computeRisk, computeRiskCore] at ho
  cases hfind : requiredCols.find? (fun c => !(t.cols.contains c)) with
  | some c => rw [hfind] at ho; exact absurd ho (by simp)
  | none =>
    rw [hfind] at ho
    injection ho with ho
    subst ho
    simp only [augment, List.mem_map] at hm
    obtain ⟨r, _, rfl⟩ := hm
    exact ⟨rfl, rfl⟩

/-- Witness for the amended C2 at the concrete future-timestamp table. -/
theorem gradeSnoop_count_and_indicator_witness :
    computeRisk cT2 0 = Except.ok cO2 ∧ cR2 ∈ cO2.rows ∧
    (cR2.grade_snoop = ((userRows cT2.rows cR2.user).filter (fun r =>
        timeGe r.time (0 - 48 * 3600) &&
        r.event_name == "Grade user report viewed")).length ∧
      cR2.risk_score =
        cR2.zero_resource.toNat +
        cR2.lastmin_first.toNat +
        (decide (cR2.grade_snoop ≥ 3)).toNat +
        (cR2.no_draft && decide (cR2.status_checks ≥ 4)).toNat +
        (decide (cR2.hop_binge ≥ 5)).toNat +
        (!cR2.help_count).toNat +
        (decide (cR2.geo_jumps ≥ 2)).toNat) :=
  ⟨rfl, by simp [cO2, augment, cR2],
    gradeSnoop_count_and_indicator cT2 0 cO2 cR2 rfl (by simp [cO2, augment, cR2])⟩

/-- C6 (counterexample): the output schema of `compute_risk` carries
eleven added columns, not eight — the intermediate columns `minute5`
(line 92) and `ip_block` (line 103) are assigned onto the dataframe and
never dropped, and the signal columns number eight, so "exactly eight
derived columns and no other added columns" fails already on the empty
log over the required schema. -/
theorem outputCols_counterexample :
    computeRisk ⟨requiredCols, []⟩ 0 = Except.ok ⟨requiredCols ++ addedCols, []⟩ ∧
    (requiredCols ++ addedCols).length = requiredCols.length + 11 ∧
    "minute5" ∈ addedCols ∧ "ip_block" ∈ addedCols ∧
    ¬((requiredCols ++ addedCols).length = requiredCols.length + 8) :=
  ⟨rfl, by decide, by decide, by decide, by decide⟩

/-- C6 (amended): a successful `compute_risk` output is the input table
augmented with exactly eleven added columns — the eight signal columns,
the two intermediate columns `minute5` and `ip_block`, and the integer
`risk_score` — and it has exactly one output row per input row. -/
theorem outputCols_augmented_eleven (t : Table) (now : Int) (o : OTable)
    (ho : computeRisk t now = Except.ok o) :
    o.cols = t.cols ++ ["zero_resource", "lastmin_first", "grade_snoop", "status_checks",
      "no_draft", "minute5", "hop_binge", "help_count", "ip_block", "geo_jumps",
      "risk_score"] ∧
    o.rows.length = t.rows.length := by
  simp only [computeRisk, computeRiskCore] at ho
  cases hfind : requiredCols.find? (fun c => !(t.cols.contains c)) with
  | some c => rw [hfind] at ho; exact absurd ho (by simp)
  | none =>
    rw [hfind] at ho
    injection ho with ho
    subst ho
    exact ⟨rfl, by simp [augment]⟩

/-- Witness for the amended C6 at a concrete one-row table. -/
theorem outputCols_augmented_eleven_witness :
    computeRisk wT1 1000 = Except.ok wO1 ∧
    (wO1.cols = wT1.cols ++ ["zero_resource", "lastmin_first", "grade_snoop",
      "status_checks", "no_draft", "minute5", "hop_binge", "help_count", "ip_block",
      "geo_jumps", "risk_score"] ∧
      wO1.rows.length = wT1.rows.length) :=
  ⟨rfl, outputCols_augmented_eleven wT1 1000 wO1 rfl⟩
